import Mathlib

/-!
Verification of the debugger GC-protection wire format declared in
`src/Native/Runtime/Debug.h`: two enumerations (`DebuggerGcProtectionMessage`
backed by `uint32_t`, `DebuggerGcProtectionRequestKind` backed by `uint16_t`)
and two fixed-layout records (`GcProtectionMessage`, `GcProtectionRequest`).

Machine integers are modelled as `Nat`, reduced modulo `2 ^ w` exactly where a
store into a `w`-bit unsigned field truncates.  Raw byte buffers are lists of
byte values in little-endian order.  The header itself declares only data; the
serializer, the runtime-side producer and the debugger-side consumer live
outside the given source and are modelled from the specification where a claim
needs them (each such definition says so in its doc comment).
-/

namespace Debug

/-- Byte width of the backing type of `enum DebuggerGcProtectionMessage`,
declared `: uint32_t` (4 bytes, 32 bits). -/
def DebuggerGcProtectionMessage.byteWidth : Nat := 4

/-- Enumerator `RequestBufferReady = 2` of `enum DebuggerGcProtectionMessage`. -/
def RequestBufferReady : Nat := 2

/-- Enumerator `ConservativeReportingBufferReady = 3` of
`enum DebuggerGcProtectionMessage`. -/
def ConservativeReportingBufferReady : Nat := 3

/-- Byte width of the backing type of `enum DebuggerGcProtectionRequestKind`,
declared `: uint16_t` (2 bytes, 16 bits). -/
def DebuggerGcProtectionRequestKind.byteWidth : Nat := 2

/-- Enumerator `EnsureConservativeReporting = 1` of
`enum DebuggerGcProtectionRequestKind`. -/
def EnsureConservativeReporting : Nat := 1

/-- Enumerator `RemoveConservativeReporting = 2` of
`enum DebuggerGcProtectionRequestKind`. -/
def RemoveConservativeReporting : Nat := 2

/-- Enumerator `RemoveHandle = 3` of `enum DebuggerGcProtectionRequestKind`. -/
def RemoveHandle : Nat := 3

/-- Whether a raw 32-bit value is one of the defined message command codes. -/
def validCommandCode (c : Nat) : Bool :=
  c == RequestBufferReady || c == ConservativeReportingBufferReady

/-- Whether a raw 16-bit value is one of the defined request kinds. -/
def validRequestKind (k : Nat) : Bool :=
  k == EnsureConservativeReporting || k == RemoveConservativeReporting ||
    k == RemoveHandle

/-- The record `struct GcProtectionMessage`: `commandCode` (enum backed by
`uint32_t`), `unused` (`uint32_t`, alignment padding), `bufferAddress`
(`uint64_t`). -/
structure GcProtectionMessage where
  commandCode : Nat
  unused : Nat
  bufferAddress : Nat
deriving DecidableEq

/-- The record `struct GcProtectionRequest`: `kind` (enum backed by
`uint16_t`), `size` (`uint16_t`), `identifier` (`uint32_t`), `address`
(`uint64_t`). -/
structure GcProtectionRequest where
  kind : Nat
  size : Nat
  identifier : Nat
  address : Nat
deriving DecidableEq

/-- Round an offset up to the next multiple of the alignment `a`. -/
def alignUp (off a : Nat) : Nat :=
  if a = 0 then off else (off + a - 1) / a * a

/-- Offsets assigned to a list of fields, each given as (byte size, alignment),
by the C struct layout rule: each field is placed at the next offset that is a
multiple of its alignment, fields in declaration order. -/
def fieldOffsets : Nat → List (Nat × Nat) → List Nat
  | _, [] => []
  | off, f :: rest => alignUp off f.2 :: fieldOffsets (alignUp off f.2 + f.1) rest

/-- End offset after laying out a list of fields starting at a given offset. -/
def structEnd : Nat → List (Nat × Nat) → Nat
  | off, [] => off
  | off, f :: rest => structEnd (alignUp off f.2 + f.1) rest

/-- The strictest alignment among the fields of a struct. -/
def maxAlign (fields : List (Nat × Nat)) : Nat :=
  fields.foldr (fun f m => max f.2 m) 1

/-- Total size of a struct: the end offset of its fields rounded up to the
struct's own alignment. -/
def structSize (fields : List (Nat × Nat)) : Nat :=
  alignUp (structEnd 0 fields) (maxAlign fields)

/-- Sizes and alignments of the fields of `struct GcProtectionMessage` in
declaration order, on a target whose packing honours the declared 64-bit
alignment requirement (natural alignment: a `uint32_t` is 4-byte aligned,
a `uint64_t` 8-byte aligned): `commandCode`, `unused`, `bufferAddress`. -/
def GcProtectionMessage.cFields : List (Nat × Nat) := [(4, 4), (4, 4), (8, 8)]

/-- Sizes and alignments of the fields of `struct GcProtectionRequest` in
declaration order under natural alignment: `kind`, `size`, `identifier`,
`address`. -/
def GcProtectionRequest.cFields : List (Nat × Nat) :=
  [(2, 2), (2, 2), (4, 4), (8, 8)]

/-- Little-endian encoding of a value into `w` bytes, as a C store of a
`w`-byte unsigned integer lays it out in memory (the value is truncated
modulo `2 ^ (8 * w)`). -/
def toLE : Nat → Nat → List Nat
  | 0, _ => []
  | w + 1, v => v % 256 :: toLE w (v / 256)

/-- Value of a little-endian byte list. -/
def fromLE : List Nat → Nat
  | [] => 0
  | b :: bs => b + 256 * fromLE bs

/-- Modelled from the spec: serialization of a `GcProtectionMessage` as the
raw bytes of the record on a little-endian target.  The transport that copies
the record between the runtime and the debugger is not part of the given
source; the spec states the record crosses the process boundary as raw bytes
with the declared field widths and order. -/
def encodeMessage (m : GcProtectionMessage) : List Nat :=
  toLE 4 m.commandCode ++ toLE 4 m.unused ++ toLE 8 m.bufferAddress

/-- Modelled from the spec: serialization of a `GcProtectionRequest` as the
raw bytes of the record on a little-endian target. -/
def encodeRequest (r : GcProtectionRequest) : List Nat :=
  toLE 2 r.kind ++ toLE 2 r.size ++ toLE 4 r.identifier ++ toLE 8 r.address

/-- Modelled from the spec: the debugger-side decoder of a protection
message.  It succeeds exactly on 16-byte buffers whose command-code field is
one of the defined values; an unrecognized command code is the
unrecognized-message condition, reported as `none`. -/
def decodeMessage (bytes : List Nat) : Option GcProtectionMessage :=
  if bytes.length = 16 then
    let cc := fromLE (bytes.take 4)
    if validCommandCode cc then
      some ⟨cc, fromLE ((bytes.drop 4).take 4), fromLE (bytes.drop 8)⟩
    else none
  else none

/-- Modelled from the spec: the debugger-side decoder of a protection
request.  It succeeds exactly on 16-byte buffers whose kind field is one of
the defined values; an unrecognized kind is the unrecognized-request
condition, reported as `none`. -/
def decodeRequest (bytes : List Nat) : Option GcProtectionRequest :=
  if bytes.length = 16 then
    let k := fromLE (bytes.take 2)
    if validRequestKind k then
      some ⟨k, fromLE ((bytes.drop 2).take 2), fromLE ((bytes.drop 4).take 4),
        fromLE (bytes.drop 8)⟩
    else none
  else none

/-- The meaning carried by a decoded protection message: the `unused` padding
field carries no semantic value, so the meaning is the command code and the
buffer address only. -/
structure GcProtectionMessageMeaning where
  commandCode : Nat
  bufferAddress : Nat
deriving DecidableEq

/-- Projection of a protection message onto its meaning, discarding the
`unused` padding (don't-care on read). -/
def GcProtectionMessage.meaning (m : GcProtectionMessage) :
    GcProtectionMessageMeaning :=
  ⟨m.commandCode, m.bufferAddress⟩

/-- Modelled from the spec: the runtime-side producer writing a protection
message into the shared buffer zero-fills the `unused` padding field. -/
def writeMessage (commandCode bufferAddress : Nat) : List Nat :=
  encodeMessage ⟨commandCode, 0, bufferAddress⟩

theorem toLE_length (w v : Nat) : (toLE w v).length = w := by
  induction w generalizing v with
  | zero => rfl
  | succ w ih => simp [toLE, ih]

theorem fromLE_toLE (w v : Nat) : fromLE (toLE w v) = v % 256 ^ w := by
  induction w generalizing v with
  | zero => simp [toLE, fromLE, Nat.mod_one]
  | succ w ih =>
    rw [toLE, fromLE, ih, pow_succ, mul_comm (256 ^ w) 256, Nat.mod_mul]

theorem encodeMessage_length (m : GcProtectionMessage) :
    (encodeMessage m).length = 16 := by
  simp [encodeMessage, toLE_length]

theorem encodeMessage_group (m : GcProtectionMessage) :
    encodeMessage m =
      toLE 4 m.commandCode ++ (toLE 4 m.unused ++ toLE 8 m.bufferAddress) := by
  simp [encodeMessage, List.append_assoc]

theorem encodeMessage_take4 (m : GcProtectionMessage) :
    (encodeMessage m).take 4 = toLE 4 m.commandCode := by
  rw [encodeMessage_group]
  exact List.take_left' (toLE_length 4 m.commandCode)

theorem encodeMessage_drop4_take4 (m : GcProtectionMessage) :
    ((encodeMessage m).drop 4).take 4 = toLE 4 m.unused := by
  rw [encodeMessage_group, List.drop_left' (toLE_length 4 m.commandCode)]
  exact List.take_left' (toLE_length 4 m.unused)

theorem encodeMessage_drop8 (m : GcProtectionMessage) :
    (encodeMessage m).drop 8 = toLE 8 m.bufferAddress := by
  simp only [encodeMessage]
  exact List.drop_left' (by simp [toLE_length])

theorem decodeMessage_encodeMessage (m : GcProtectionMessage) :
    decodeMessage (encodeMessage m) =
      if validCommandCode (m.commandCode % 2 ^ 32) then
        some ⟨m.commandCode % 2 ^ 32, m.unused % 2 ^ 32,
          m.bufferAddress % 2 ^ 64⟩
      else none := by
  have h32 : (256 : Nat) ^ 4 = 2 ^ 32 := by norm_num
  have h64 : (256 : Nat) ^ 8 = 2 ^ 64 := by norm_num
  simp [decodeMessage, encodeMessage_length, encodeMessage_take4,
    encodeMessage_drop4_take4, encodeMessage_drop8, fromLE_toLE, h32, h64]

theorem encodeRequest_length (r : GcProtectionRequest) :
    (encodeRequest r).length = 16 := by
  simp [encodeRequest, toLE_length]

theorem encodeRequest_group2 (r : GcProtectionRequest) :
    encodeRequest r =
      toLE 2 r.kind ++
        (toLE 2 r.size ++ (toLE 4 r.identifier ++ toLE 8 r.address)) := by
  simp [encodeRequest, List.append_assoc]

theorem encodeRequest_group4 (r : GcProtectionRequest) :
    encodeRequest r =
      (toLE 2 r.kind ++ toLE 2 r.size) ++
        (toLE 4 r.identifier ++ toLE 8 r.address) := by
  simp [encodeRequest, List.append_assoc]

theorem encodeRequest_take2 (r : GcProtectionRequest) :
    (encodeRequest r).take 2 = toLE 2 r.kind := by
  rw [encodeRequest_group2]
  exact List.take_left' (toLE_length 2 r.kind)

theorem encodeRequest_drop2_take2 (r : GcProtectionRequest) :
    ((encodeRequest r).drop 2).take 2 = toLE 2 r.size := by
  rw [encodeRequest_group2, List.drop_left' (toLE_length 2 r.kind)]
  exact List.take_left' (toLE_length 2 r.size)

theorem encodeRequest_drop4_take4 (r : GcProtectionRequest) :
    ((encodeRequest r).drop 4).take 4 = toLE 4 r.identifier := by
  rw [encodeRequest_group4, List.drop_left' (by simp [toLE_length])]
  exact List.take_left' (toLE_length 4 r.identifier)

theorem encodeRequest_drop8 (r : GcProtectionRequest) :
    (encodeRequest r).drop 8 = toLE 8 r.address := by
  simp only [encodeRequest]
  exact List.drop_left' (by simp [toLE_length])

theorem decodeRequest_encodeRequest (r : GcProtectionRequest) :
    decodeRequest (encodeRequest r) =
      if validRequestKind (r.kind % 2 ^ 16) then
        some ⟨r.kind % 2 ^ 16, r.size % 2 ^ 16, r.identifier % 2 ^ 32,
          r.address % 2 ^ 64⟩
      else none := by
  have h16 : (256 : Nat) ^ 2 = 2 ^ 16 := by norm_num
  have h32 : (256 : Nat) ^ 4 = 2 ^ 32 := by norm_num
  have h64 : (256 : Nat) ^ 8 = 2 ^ 64 := by norm_num
  simp [decodeRequest, encodeRequest_length, encodeRequest_take2,
    encodeRequest_drop2_take2, encodeRequest_drop4_take4, encodeRequest_drop8,
    fromLE_toLE, h16, h32, h64]

theorem validCommandCode_lt {c : Nat} (h : validCommandCode c = true) :
    c < 2 ^ 32 := by
  have : c = 2 ∨ c = 3 := by
    simpa [validCommandCode, RequestBufferReady,
      ConservativeReportingBufferReady] using h
  rcases this with h | h <;> subst h <;> norm_num

theorem validRequestKind_lt {k : Nat} (h : validRequestKind k = true) :
    k < 2 ^ 16 := by
  have : k = 1 ∨ k = 2 ∨ k = 3 := by
    simpa [validRequestKind, EnsureConservativeReporting,
      RemoveConservativeReporting, RemoveHandle, or_assoc] using h
  rcases this with h | h | h <;> subst h <;> norm_num

/-- C1: `struct GcProtectionMessage` occupies exactly 16 bytes, with
`commandCode` a 4-byte field at offset 0, `unused` a 4-byte field at offset 4
and `bufferAddress` an 8-byte field at offset 8, under packing rules honouring
the declared 64-bit alignment requirement. -/
theorem claim_C1_message_layout :
    fieldOffsets 0 GcProtectionMessage.cFields = [0, 4, 8] ∧
    structSize GcProtectionMessage.cFields = 16 ∧
    GcProtectionMessage.cFields.map Prod.fst = [4, 4, 8] := by decide

/-- C2: `struct GcProtectionRequest` occupies exactly 16 bytes, with `kind` a
2-byte field at offset 0, `size` a 2-byte field at offset 2, `identifier` a
4-byte field at offset 4 and `address` an 8-byte field at offset 8. -/
theorem claim_C2_request_layout :
    fieldOffsets 0 GcProtectionRequest.cFields = [0, 2, 4, 8] ∧
    structSize GcProtectionRequest.cFields = 16 ∧
    GcProtectionRequest.cFields.map Prod.fst = [2, 2, 4, 8] := by decide

/-- C3: the enumerators have exactly the declared values and backing widths:
`RequestBufferReady = 2` and `ConservativeReportingBufferReady = 3` in the
32-bit (4-byte) message command-code enumeration, and
`EnsureConservativeReporting = 1`, `RemoveConservativeReporting = 2`,
`RemoveHandle = 3` in the 16-bit (2-byte) request-kind enumeration. -/
theorem claim_C3_enum_values :
    RequestBufferReady = 2 ∧ ConservativeReportingBufferReady = 3 ∧
    DebuggerGcProtectionMessage.byteWidth = 4 ∧
    EnsureConservativeReporting = 1 ∧ RemoveConservativeReporting = 2 ∧
    RemoveHandle = 3 ∧ DebuggerGcProtectionRequestKind.byteWidth = 2 := by
  decide

/-- C4: for every protection message whose command code is one of the two
defined values, serializing it and decoding the bytes reproduces
`commandCode` and `bufferAddress` exactly; and any two messages that agree on
`commandCode` and `bufferAddress` (differing at most in `unused`) have equal
decoded meaning. -/
theorem claim_C4_message_roundtrip (m : GcProtectionMessage)
    (hc : validCommandCode m.commandCode = true)
    (hb : m.bufferAddress < 2 ^ 64) :
    (∃ d, decodeMessage (encodeMessage m) = some d ∧
      d.commandCode = m.commandCode ∧ d.bufferAddress = m.bufferAddress) ∧
    ∀ m₂ : GcProtectionMessage, m₂.commandCode = m.commandCode →
      m₂.bufferAddress = m.bufferAddress →
      (decodeMessage (encodeMessage m₂)).map GcProtectionMessage.meaning =
        (decodeMessage (encodeMessage m)).map GcProtectionMessage.meaning := by
  have hcc : m.commandCode % 2 ^ 32 = m.commandCode :=
    Nat.mod_eq_of_lt (validCommandCode_lt hc)
  have hba : m.bufferAddress % 2 ^ 64 = m.bufferAddress := Nat.mod_eq_of_lt hb
  constructor
  · refine ⟨⟨m.commandCode, m.unused % 2 ^ 32, m.bufferAddress⟩, ?_, rfl, rfl⟩
    rw [decodeMessage_encodeMessage, hcc, hba, if_pos hc]
  · intro m₂ h1 h2
    rw [decodeMessage_encodeMessage, decodeMessage_encodeMessage, h1, h2]
    by_cases hv : validCommandCode (m.commandCode % 2 ^ 32) = true
    · rw [if_pos hv, if_pos hv]
      simp [GcProtectionMessage.meaning]
    · rw [if_neg hv, if_neg hv]

/-- Witness for C4 at the message (RequestBufferReady, unused 5, address
4096) against the message differing only in unused = 77. -/
theorem claim_C4_witness :
    (decodeMessage (encodeMessage ⟨RequestBufferReady, 77, 4096⟩)).map
        GcProtectionMessage.meaning =
      (decodeMessage (encodeMessage ⟨RequestBufferReady, 5, 4096⟩)).map
        GcProtectionMessage.meaning :=
  (claim_C4_message_roundtrip ⟨RequestBufferReady, 5, 4096⟩ (by decide)
    (by norm_num)).2 ⟨RequestBufferReady, 77, 4096⟩ rfl rfl

/-- C5: for every protection request whose kind is one of the three defined
values, serializing it and decoding the bytes preserves `kind`, `size`,
`identifier` and `address` exactly. -/
theorem claim_C5_request_roundtrip (r : GcProtectionRequest)
    (hk : validRequestKind r.kind = true) (hs : r.size < 2 ^ 16)
    (hi : r.identifier < 2 ^ 32) (ha : r.address < 2 ^ 64) :
    decodeRequest (encodeRequest r) = some r := by
  rw [decodeRequest_encodeRequest, Nat.mod_eq_of_lt (validRequestKind_lt hk),
    Nat.mod_eq_of_lt hs, Nat.mod_eq_of_lt hi, Nat.mod_eq_of_lt ha, if_pos hk]

/-- Witness for C5 at the request (EnsureConservativeReporting, size 64,
identifier 7, address 8192). -/
theorem claim_C5_witness :
    decodeRequest (encodeRequest ⟨EnsureConservativeReporting, 64, 7, 8192⟩) =
      some ⟨EnsureConservativeReporting, 64, 7, 8192⟩ :=
  claim_C5_request_roundtrip ⟨EnsureConservativeReporting, 64, 7, 8192⟩
    (by decide) (by norm_num) (by norm_num) (by norm_num)

/-- C6: on a 16-byte buffer the message decoder succeeds exactly when the
command-code field holds one of the two defined values, and the request
decoder succeeds exactly when the kind field holds one of the three defined
values; every other value is the unrecognized-message, resp.
unrecognized-request, condition. -/
theorem claim_C6_unrecognized (bytes : List Nat) (h : bytes.length = 16) :
    ((decodeMessage bytes).isSome =
      validCommandCode (fromLE (bytes.take 4))) ∧
    ((decodeRequest bytes).isSome =
      validRequestKind (fromLE (bytes.take 2))) := by
  constructor
  · cases hv : validCommandCode (fromLE (bytes.take 4)) <;>
      simp [decodeMessage, h, hv]
  · cases hv : validRequestKind (fromLE (bytes.take 2)) <;>
      simp [decodeRequest, h, hv]

/-- Witness for C6 on the all-zero 16-byte buffer, whose command code 0 and
kind 0 are outside both defined sets. -/
theorem claim_C6_witness :
    ((decodeMessage [0, 0, 0, 0, 0, 0, 0, 0, 0, 0, 0, 0, 0, 0, 0, 0]).isSome =
      validCommandCode
        (fromLE (([0, 0, 0, 0, 0, 0, 0, 0, 0, 0, 0, 0, 0, 0, 0, 0] :
          List Nat).take 4))) ∧
    ((decodeRequest [0, 0, 0, 0, 0, 0, 0, 0, 0, 0, 0, 0, 0, 0, 0, 0]).isSome =
      validRequestKind
        (fromLE (([0, 0, 0, 0, 0, 0, 0, 0, 0, 0, 0, 0, 0, 0, 0, 0] :
          List Nat).take 2))) :=
  claim_C6_unrecognized [0, 0, 0, 0, 0, 0, 0, 0, 0, 0, 0, 0, 0, 0, 0, 0]
    (by decide)

/-- C7: encoding the message (commandCode = RequestBufferReady,
unused = 0, bufferAddress = 0x1000) yields exactly the bytes
02 00 00 00 00 00 00 00 00 10 00 00 00 00 00 00, and decoding those bytes
yields back the same three field values. -/
theorem claim_C7_concrete_message :
    encodeMessage ⟨RequestBufferReady, 0, 4096⟩ =
      [2, 0, 0, 0, 0, 0, 0, 0, 0, 16, 0, 0, 0, 0, 0, 0] ∧
    decodeMessage [2, 0, 0, 0, 0, 0, 0, 0, 0, 16, 0, 0, 0, 0, 0, 0] =
      some ⟨RequestBufferReady, 0, 4096⟩ := by decide

/-- C8: encoding the request (kind = EnsureConservativeReporting, size = 64,
identifier = 7, address = 0x2000) yields exactly the bytes
01 00 40 00 07 00 00 00 00 20 00 00 00 00 00 00, and decoding those bytes
reproduces the four fields exactly. -/
theorem claim_C8_concrete_request :
    encodeRequest ⟨EnsureConservativeReporting, 64, 7, 8192⟩ =
      [1, 0, 64, 0, 7, 0, 0, 0, 0, 32, 0, 0, 0, 0, 0, 0] ∧
    decodeRequest [1, 0, 64, 0, 7, 0, 0, 0, 0, 32, 0, 0, 0, 0, 0, 0] =
      some ⟨EnsureConservativeReporting, 64, 7, 8192⟩ := by decide

/-- C9: the producer zero-fills the `unused` field (bytes 4 through 7 of the
encoded record) on write, and on read those bytes are don't-care: the decoded
meaning of a 16-byte buffer depends only on its first four and last eight
bytes. -/
theorem claim_C9_unused_padding (cc ba : Nat) :
    ((writeMessage cc ba).drop 4).take 4 = [0, 0, 0, 0] ∧
    ∀ b₁ b₂ : List Nat, b₁.length = 16 → b₂.length = 16 →
      b₁.take 4 = b₂.take 4 → b₁.drop 8 = b₂.drop 8 →
      (decodeMessage b₁).map GcProtectionMessage.meaning =
        (decodeMessage b₂).map GcProtectionMessage.meaning := by
  constructor
  · simp only [writeMessage]
    rw [encodeMessage_drop4_take4]
    simp [toLE]
  · intro b₁ b₂ h1 h2 h3 h4
    by_cases hv : validCommandCode (fromLE (b₂.take 4)) = true <;>
      simp [decodeMessage, h1, h2, h3, h4, hv, GcProtectionMessage.meaning]

/-- Witness for C9: the producer output for (RequestBufferReady, 4096) has
zero padding bytes, and two buffers differing only in bytes 4..7 decode to
the same meaning. -/
theorem claim_C9_witness :
    ((writeMessage RequestBufferReady 4096).drop 4).take 4 = [0, 0, 0, 0] ∧
    (decodeMessage [2, 0, 0, 0, 9, 9, 9, 9, 0, 16, 0, 0, 0, 0, 0, 0]).map
        GcProtectionMessage.meaning =
      (decodeMessage [2, 0, 0, 0, 0, 0, 0, 0, 0, 16, 0, 0, 0, 0, 0, 0]).map
        GcProtectionMessage.meaning :=
  ⟨(claim_C9_unused_padding RequestBufferReady 4096).1,
    (claim_C9_unused_padding RequestBufferReady 4096).2
      [2, 0, 0, 0, 9, 9, 9, 9, 0, 16, 0, 0, 0, 0, 0, 0]
      [2, 0, 0, 0, 0, 0, 0, 0, 0, 16, 0, 0, 0, 0, 0, 0]
      (by decide) (by decide) (by decide) (by decide)⟩

/-- C10: the numeric code spaces of the two enumerations overlap: 2 denotes
both RequestBufferReady and RemoveConservativeReporting, 3 denotes both
ConservativeReportingBufferReady and RemoveHandle; both validity predicates
accept 2 and 3, and the very same 16-byte buffer decodes successfully as
either record type, so a raw numeric code alone does not identify the
operation. -/
theorem claim_C10_code_space_overlap :
    RequestBufferReady = RemoveConservativeReporting ∧
    ConservativeReportingBufferReady = RemoveHandle ∧
    (validCommandCode 2 = true ∧ validRequestKind 2 = true) ∧
    (validCommandCode 3 = true ∧ validRequestKind 3 = true) ∧
    (decodeMessage
      [2, 0, 0, 0, 0, 0, 0, 0, 0, 0, 0, 0, 0, 0, 0, 0]).isSome = true ∧
    (decodeRequest
      [2, 0, 0, 0, 0, 0, 0, 0, 0, 0, 0, 0, 0, 0, 0, 0]).isSome = true := by
  decide

end Debug
